import Mathlib

/-!
Shallow embedding of the Claude adapter layer of the gemini-cli repository:
the request/response converters of `packages/core/src/adapters/claudeAdapter.ts`,
the error-wrapping layer of `ClaudeContentGenerator`, and the auth-type
selection of `validateNonInteractiveAuth`.

Conventions of the embedding:
  * optional / possibly-undefined TypeScript fields become `Option`;
  * JavaScript string truthiness (`""` is falsy) and number truthiness
    (`0` is falsy) are spelled out at each use site;
  * `Date.now()` is passed in as an explicit `now : Nat` parameter;
  * fallible calls are `Except JsThrown`;
  * async generators over a vendor stream become functions on the list of
    chunks the stream delivers.
-/

/-- JSON-like values carried opaquely through the converters
("args", "input", tool schemas, function-response payloads). -/
inductive Json where
  | null : Json
  | bool (b : Bool) : Json
  | num (n : Int) : Json
  | str (s : String) : Json
  | arr (items : List Json) : Json
  | obj (fields : List (String × Json)) : Json

/-- Escaping of one character inside a JSON string literal (model of the
escaping JSON.stringify performs; only the quote and backslash cases
matter for the values this program builds). -/
def escapeChar (c : Char) : String :=
  if c = '"' then "\\\"" else if c = '\\' then "\\\\" else String.singleton c

/-- Escaping of a whole string for JSON.stringify. -/
def escapeString (s : String) : String :=
  String.join (s.toList.map escapeChar)

mutual

/-- Model of JSON.stringify on a defined JSON value. -/
def Json.stringify : Json → String
  | .null => "null"
  | .bool true => "true"
  | .bool false => "false"
  | .num n => toString n
  | .str s => "\"" ++ escapeString s ++ "\""
  | .arr items => "[" ++ Json.stringifyList items ++ "]"
  | .obj fields => "\x7b" ++ Json.stringifyFields fields ++ "\x7d"

/-- Comma-separated serialisation of a JSON array body. -/
def Json.stringifyList : List Json → String
  | [] => ""
  | [x] => Json.stringify x
  | x :: rest => Json.stringify x ++ "," ++ Json.stringifyList rest

/-- Comma-separated serialisation of a JSON object body. -/
def Json.stringifyFields : List (String × Json) → String
  | [] => ""
  | [(k, v)] => "\"" ++ escapeString k ++ "\":" ++ Json.stringify v
  | (k, v) :: rest =>
      "\"" ++ escapeString k ++ "\":" ++ Json.stringify v ++ "," ++ Json.stringifyFields rest

end

namespace Genai

/-- A `@google/genai` FunctionCall: optional name, optional args record. -/
structure FunctionCall where
  name : Option String := none
  args : Option Json := none

/-- A `@google/genai` FunctionResponse: optional name, optional response payload. -/
structure FunctionResponse where
  name : Option String := none
  response : Option Json := none

/-- A `@google/genai` Part. Exactly the three variants the adapter reads:
text, functionCall, functionResponse; each field possibly absent. -/
structure Part where
  text : Option String := none
  functionCall : Option FunctionCall := none
  functionResponse : Option FunctionResponse := none

/-- A `@google/genai` Content: optional role and optional parts list. -/
structure Content where
  role : Option String := none
  parts : Option (List Part) := none

/-- The `contents` union of the genai API. The adapter only ever tests
`Array.isArray(contents)`, so every non-array shape (single Content, Part,
string, ...) collapses to `nonArray`, which the code treats as `[]`. -/
inductive ContentsUnion where
  | arr (cs : List Content)
  | nonArray

/-- Evaluation of `Array.isArray(contents) ? contents as Content[] : []`. -/
def contentsAsList : ContentsUnion → List Content
  | .arr cs => cs
  | .nonArray => []

/-- A genai FunctionDeclaration inside a Tool. -/
structure FunctionDeclaration where
  name : Option String := none
  description : Option String := none
  parameters : Option Json := none

/-- A genai Tool: optional functionDeclarations list. -/
structure Tool where
  functionDeclarations : Option (List FunctionDeclaration) := none

/-- The `systemInstruction` union: either a plain string or an object
carrying a `parts` field (whose value may itself be undefined). An object
without a `parts` key behaves exactly like `ofContent none` (both yield an
empty system prompt), so it is folded into that constructor. -/
inductive SystemInstructionUnion where
  | ofString (s : String)
  | ofContent (parts : Option (List Part))

/-- The slice of GenerateContentConfig the adapter reads. Temperature and
topP are carried as rationals (they are only passed through, never
computed with). -/
structure GenerateContentConfig where
  systemInstruction : Option SystemInstructionUnion := none
  temperature : Option Rat := none
  topP : Option Rat := none
  maxOutputTokens : Option Nat := none
  tools : Option (List Tool) := none

/-- GenerateContentParameters: model name, contents union, optional config. -/
structure GenerateContentParameters where
  model : String := ""
  contents : ContentsUnion := .nonArray
  config : Option GenerateContentConfig := none

/-- CountTokensParameters: optional model plus the contents union. -/
structure CountTokensParameters where
  model : Option String := none
  contents : ContentsUnion := .nonArray

/-- CountTokensResponse as the adapter builds it. -/
structure CountTokensResponse where
  totalTokens : Nat
deriving DecidableEq

/-- EmbedContentParameters (opaque to this code: embedContent never reads it). -/
structure EmbedContentParameters where
  model : Option String := none
  contents : ContentsUnion := .nonArray

/-- EmbedContentResponse; never constructed by this code. -/
structure EmbedContentResponse where
  embeddings : List (List Rat) := []

/-- The genai FinishReason values this code mentions, plus enough of the
rest of the enumeration to keep it honest. -/
inductive FinishReason where
  | FINISH_REASON_UNSPECIFIED
  | STOP
  | MAX_TOKENS
  | SAFETY
  | RECITATION
  | OTHER
deriving DecidableEq

/-- A content block of a Claude (Anthropic) message: the three block shapes
this adapter builds or reads, plus `other` for any further block type an
actual response may carry (e.g. thinking blocks), which the response
converter skips. -/
inductive ClaudeBlock where
  | text (text : String)
  | tool_use (id : String) (name : Option String) (input : Json)
  | tool_result (tool_use_id : String) (content : Option String)
  | other (blockType : String)

/-- A Claude message: role string and content block list. -/
structure ClaudeMessage where
  role : String
  content : List ClaudeBlock

/-- A Claude tool declaration as built by convertToolsToClaudeFormat. -/
structure ClaudeTool where
  name : Option String := none
  description : Option String := none
  input_schema : Json := Json.obj []

/-- The Claude request record built by convertToClaudeFormat. A field that
the code only conditionally assigns is an `Option` whose `none` means
"key absent from the outgoing request". -/
structure ClaudeRequest where
  messages : List ClaudeMessage
  max_tokens : Nat
  system : Option String := none
  temperature : Option Rat := none
  top_p : Option Rat := none
  tools : Option (List ClaudeTool) := none

/-- A Claude response as convertToGeminiFormat reads it: possibly-absent
content block list and possibly-absent stop_reason string. -/
structure ClaudeResponse where
  content : Option (List ClaudeBlock) := none
  stop_reason : Option String := none

/-- A rating entry; this code only ever builds empty safetyRatings lists. -/
structure SafetyRating where
  category : String

/-- A response candidate as the two response converters build it. -/
structure Candidate where
  content : Content
  finishReason : FinishReason
  index : Nat
  safetyRatings : List SafetyRating

/-- The promptFeedback record (always built with empty safetyRatings). -/
structure PromptFeedback where
  safetyRatings : List SafetyRating

/-- GenerateContentResponse as the two converters build it. `text` is an
`Option` because the stream converter passes `chunk.delta.text` through
unchanged, which may be undefined; `data`, `executableCode` and
`codeExecutionResult` are always assigned undefined. -/
structure GenerateContentResponse where
  candidates : List Candidate
  promptFeedback : PromptFeedback
  text : Option String
  functionCalls : List FunctionCall
  data : Option String := none
  executableCode : Option String := none
  codeExecutionResult : Option String := none

end Genai

open Genai

/-- The `delta` record of a streaming event; `text` may be absent for
non-text delta kinds. -/
structure StreamDelta where
  type : String
  text : Option String := none
deriving DecidableEq

/-- A chunk of the vendor SDK stream: its `type` tag and, for delta events,
its `delta` record. -/
structure StreamChunk where
  type : String
  delta : Option StreamDelta := none
deriving DecidableEq

/-- A value thrown in JavaScript: either an Error instance (with its
`message`) or any other value (represented by its String() conversion). -/
inductive JsThrown where
  | errorObj (message : String)
  | otherValue (stringRep : String)
deriving DecidableEq

/-- Evaluation of `error instanceof Error ? error.message : String(error)`. -/
def JsThrown.asMessage : JsThrown → String
  | .errorObj m => m
  | .otherValue s => s

/-- JavaScript truthiness of a possibly-undefined string: defined and nonempty. -/
def truthyStr (v : Option String) : Bool :=
  match v with
  | some s => s ≠ ""
  | none => false

/-- Evaluation of `Math.ceil(n / k)` on nonnegative integers. -/
def mathCeilDiv (n k : Nat) : Nat := (n + k - 1) / k

/-- Model of String.prototype.trim: drop whitespace from both ends.
(ASCII whitespace, which covers every string this development builds.) -/
def jsTrim (s : String) : String :=
  ⟨(((s.toList.dropWhile Char.isWhitespace).reverse.dropWhile Char.isWhitespace).reverse)⟩

namespace ClaudeAdapter

/-- The accumulation step shared by the system-prompt extraction and
extractTextFromContents: for each part with truthy text, append the text
and one space to the accumulator. -/
def appendTextParts (acc : String) (parts : List Part) : String :=
  parts.foldl
    (fun a p =>
      match p.text with
      | some t => if t = "" then a else a ++ t ++ " "
      | none => a)
    acc

/-- extractTextFromContents: accumulate the truthy text of every part of
every content that has a truthy parts field, then trim. -/
def extractTextFromContents (contents : List Content) : String :=
  jsTrim (contents.foldl
    (fun a c =>
      match c.parts with
      | some ps => appendTextParts a ps
      | none => a)
    "")

/-- The system prompt extracted at the top of convertToClaudeFormat. A
plain string is taken as is; an object with parts gets its truthy text
parts joined with single spaces and trimmed; no systemInstruction gives
the empty string (an empty-string systemInstruction is falsy in the
source guard, but yields the empty prompt either way). -/
def extractSystemPrompt (config : Option GenerateContentConfig) : String :=
  match config with
  | some cfg =>
      match cfg.systemInstruction with
      | some (.ofString s) => s
      | some (.ofContent parts) => jsTrim (appendTextParts "" (parts.getD []))
      | none => ""
  | none => ""

/-- convertPartsToClaudeContent. The chain is the else-if chain of the
source: truthy text wins, else a present functionCall, else a present
functionResponse, else the part contributes nothing. `now` is the value
of `Date.now()` baked into the generated tool ids. -/
def convertPartsToClaudeContent (parts : List Part) (now : Nat) : List ClaudeBlock :=
  match parts with
  | [] => []
  | p :: rest =>
      let tail := convertPartsToClaudeContent rest now
      if p.text.getD "" ≠ "" then
        ClaudeBlock.text (p.text.getD "") :: tail
      else
        match p.functionCall with
        | some fc =>
            ClaudeBlock.tool_use ("tool_" ++ toString now) fc.name (fc.args.getD (Json.obj [])) :: tail
        | none =>
            match p.functionResponse with
            | some fr =>
                ClaudeBlock.tool_result ("tool_" ++ toString now) (fr.response.map Json.stringify) :: tail
            | none => tail

/-- The contents-to-messages loop of convertToClaudeFormat: role "user"
maps to a user message, role "model" to an assistant message, anything
else (other value, or no role) is skipped. -/
def buildMessages (contents : List Content) (now : Nat) : List ClaudeMessage :=
  match contents with
  | [] => []
  | c :: rest =>
      let tail := buildMessages rest now
      if c.role = some "user" then
        { role := "user", content := convertPartsToClaudeContent (c.parts.getD []) now } :: tail
      else if c.role = some "model" then
        { role := "assistant", content := convertPartsToClaudeContent (c.parts.getD []) now } :: tail
      else tail

/-- convertToolsToClaudeFormat: flatten every tool with a present
functionDeclarations list into Claude tool records; `func.parameters || an
empty object` becomes `getD (Json.obj [])`. -/
def convertToolsToClaudeFormat (tools : List Tool) : List ClaudeTool :=
  match tools with
  | [] => []
  | t :: rest =>
      (match t.functionDeclarations with
        | some fds =>
            fds.map (fun f =>
              { name := f.name, description := f.description,
                input_schema := f.parameters.getD (Json.obj []) })
        | none => []) ++ convertToolsToClaudeFormat rest

/-- Conditional assignment `if (systemPrompt) claudeRequest.system = systemPrompt`
(the empty string is falsy). -/
def applySystem (r : ClaudeRequest) (systemPrompt : String) : ClaudeRequest :=
  if systemPrompt ≠ "" then { r with system := some systemPrompt } else r

/-- Conditional assignment of temperature, guarded by `!== undefined`. -/
def applyTemperature (r : ClaudeRequest) (t : Option Rat) : ClaudeRequest :=
  match t with
  | some v => { r with temperature := some v }
  | none => r

/-- Conditional assignment of top_p, guarded by `!== undefined`. -/
def applyTopP (r : ClaudeRequest) (t : Option Rat) : ClaudeRequest :=
  match t with
  | some v => { r with top_p := some v }
  | none => r

/-- Conditional assignment of the converted tools, guarded by
`tools && tools.length > 0`. -/
def applyTools (r : ClaudeRequest) (tools : Option (List Tool)) : ClaudeRequest :=
  match tools with
  | some ts =>
      if ts.length > 0 then { r with tools := some (convertToolsToClaudeFormat ts) } else r
  | none => r

/-- convertToClaudeFormat. The record starts with messages and max_tokens
(`maxOutputTokens || 4096`: undefined and 0 are both falsy in JS) and the
four conditional assignments of the source are applied in order. -/
def convertToClaudeFormat (request : GenerateContentParameters) (now : Nat) : ClaudeRequest :=
  let base : ClaudeRequest :=
    { messages := buildMessages (contentsAsList request.contents) now,
      max_tokens :=
        match request.config.bind GenerateContentConfig.maxOutputTokens with
        | some m => if m = 0 then 4096 else m
        | none => 4096 }
  applyTools
    (applyTopP
      (applyTemperature
        (applySystem base (extractSystemPrompt request.config))
        (request.config.bind GenerateContentConfig.temperature))
      (request.config.bind GenerateContentConfig.topP))
    (request.config.bind GenerateContentConfig.tools)

/-- mapFinishReason: the switch over the Claude stop_reason string. -/
def mapFinishReason (claudeStopReason : Option String) : FinishReason :=
  if claudeStopReason = some "end_turn" then FinishReason.STOP
  else if claudeStopReason = some "max_tokens" then FinishReason.MAX_TOKENS
  else if claudeStopReason = some "tool_use" then FinishReason.STOP
  else FinishReason.STOP

/-- The block-to-part loop of convertToGeminiFormat: text blocks become
text parts, tool_use blocks become functionCall parts, every other block
kind is skipped. -/
def blocksToParts (blocks : List ClaudeBlock) : List Part :=
  match blocks with
  | [] => []
  | b :: rest =>
      match b with
      | .text t => { text := some t } :: blocksToParts rest
      | .tool_use _ name input =>
          { functionCall := some { name := name, args := some input } } :: blocksToParts rest
      | _ => blocksToParts rest

/-- convertToGeminiFormat. -/
def convertToGeminiFormat (claudeResponse : ClaudeResponse) : GenerateContentResponse :=
  let parts :=
    match claudeResponse.content with
    | some blocks => blocksToParts blocks
    | none => []
  { candidates :=
      [{ content := { parts := some parts, role := some "model" },
         finishReason := mapFinishReason claudeResponse.stop_reason,
         index := 0,
         safetyRatings := [] }],
    promptFeedback := { safetyRatings := [] },
    text := some (((parts.find? (fun p => p.text.isSome)).bind Part.text).getD ""),
    functionCalls := parts.filterMap Part.functionCall }

/-- convertStreamChunkToGemini: wrap the delta text of one streaming chunk
into a single-candidate response with finishReason STOP and no function
calls. (The source only calls this under the text-delta guard, where the
delta is present.) -/
def convertStreamChunkToGemini (chunk : StreamChunk) : GenerateContentResponse :=
  let deltaText : Option String := chunk.delta.bind StreamDelta.text
  { candidates :=
      [{ content := { parts := some [{ text := deltaText }], role := some "model" },
         finishReason := FinishReason.STOP,
         index := 0,
         safetyRatings := [] }],
    promptFeedback := { safetyRatings := [] },
    text := deltaText,
    functionCalls := [] }

/-- The yield guard of the streaming loop:
`chunk.type === "content_block_delta" && chunk.delta.type === "text_delta"`
(the second conjunct is only evaluated when the first holds, so the delta
is only inspected on delta chunks). -/
def isTextDeltaChunk (chunk : StreamChunk) : Bool :=
  chunk.type = "content_block_delta" &&
    (match chunk.delta with
      | some d => d.type = "text_delta"
      | none => false)

/-- The for-await loop of generateContentStream over the chunks the vendor
stream delivers: yield the conversion of every chunk passing the
text-delta guard, in order. -/
def streamYields (chunks : List StreamChunk) : List GenerateContentResponse :=
  match chunks with
  | [] => []
  | chunk :: rest =>
      if isTextDeltaChunk chunk then convertStreamChunkToGemini chunk :: streamYields rest
      else streamYields rest

/-- The whole streaming generator run: on a successful underlying stream
the converted yields; any error thrown by the underlying call or during
iteration is caught by the single try/catch and re-thrown as an Error with
the fixed "Claude streaming error: " message prefix. -/
def generateContentStreamRun
    (underlying : Except JsThrown (List StreamChunk)) :
    Except JsThrown (List GenerateContentResponse) :=
  match underlying with
  | .ok chunks => .ok (streamYields chunks)
  | .error e => .error (.errorObj ("Claude streaming error: " ++ e.asMessage))

/-- ClaudeAdapter.generateContent: convert the request, make the single
client call, convert the response; errors propagate uncaught here. The
client call is abstracted by its result. -/
def generateContent
    (clientResult : Except JsThrown ClaudeResponse) :
    Except JsThrown GenerateContentResponse :=
  clientResult.map convertToGeminiFormat

/-- ClaudeAdapter.countTokens: length of the extracted text divided by 4,
rounded up; a non-array contents collapses to the empty list first. -/
def countTokens (request : CountTokensParameters) : CountTokensResponse :=
  let contents := contentsAsList request.contents
  let text := extractTextFromContents contents
  { totalTokens := mathCeilDiv text.length 4 }

/-- ClaudeAdapter.embedContent: unconditionally rejects. -/
def embedContent (_request : EmbedContentParameters) :
    Except JsThrown EmbedContentResponse :=
  .error (.errorObj "Embedding not supported for Claude models. Use Gemini embedding models instead.")

end ClaudeAdapter

namespace ClaudeContentGenerator

/-- ClaudeContentGenerator.generateContent: delegate to the adapter and
re-throw any error as an Error with the "Claude API error: " prefix. -/
def generateContent
    (clientResult : Except JsThrown ClaudeResponse) :
    Except JsThrown GenerateContentResponse :=
  match ClaudeAdapter.generateContent clientResult with
  | .ok r => .ok r
  | .error e => .error (.errorObj ("Claude API error: " ++ e.asMessage))

/-- ClaudeContentGenerator.generateContentStream: returns the adapter
generator unchanged. Its own try/catch only guards the synchronous
construction of the generator, which cannot throw, so stream errors reach
the caller exactly as the adapter produced them. -/
def generateContentStream
    (underlying : Except JsThrown (List StreamChunk)) :
    Except JsThrown (List GenerateContentResponse) :=
  ClaudeAdapter.generateContentStreamRun underlying

/-- ClaudeContentGenerator.embedContent: unconditionally rejects. -/
def embedContent (_request : EmbedContentParameters) :
    Except JsThrown EmbedContentResponse :=
  .error (.errorObj "Embedding not supported for Claude models. Please use Gemini embedding models instead.")

end ClaudeContentGenerator

/-- The auth methods validateNonInteractiveAuth can select. -/
inductive AuthType where
  | LOGIN_WITH_GOOGLE
  | USE_GEMINI
  | USE_VERTEX_AI
  | USE_CLAUDE
deriving DecidableEq

/-- The four environment variables getAuthTypeFromEnv and
validateNonInteractiveAuth read; `none` means unset, `some ""` means set
to the empty string. -/
structure Env where
  GOOGLE_GENAI_USE_GCA : Option String := none
  GOOGLE_GENAI_USE_VERTEXAI : Option String := none
  ANTHROPIC_VERTEX_PROJECT_ID : Option String := none
  GEMINI_API_KEY : Option String := none
deriving DecidableEq

/-- getAuthTypeFromEnv: the fixed-priority chain over the environment. -/
def getAuthTypeFromEnv (env : Env) : Option AuthType :=
  if env.GOOGLE_GENAI_USE_GCA = some "true" then some AuthType.LOGIN_WITH_GOOGLE
  else if env.GOOGLE_GENAI_USE_VERTEXAI = some "true" then some AuthType.USE_VERTEX_AI
  else if truthyStr env.ANTHROPIC_VERTEX_PROJECT_ID then some AuthType.USE_CLAUDE
  else if truthyStr env.GEMINI_API_KEY then some AuthType.USE_GEMINI
  else none

/-- Occurrence of `pat` as a contiguous subsequence (model of
String.prototype.includes on the character list). -/
def listContainsSeq (pat : List Char) : List Char → Bool
  | [] => pat.isEmpty
  | c :: rest => pat.isPrefixOf (c :: rest) || listContainsSeq pat rest

/-- Evaluation of `s.includes(pat)`. -/
def strIncludes (s pat : String) : Bool :=
  listContainsSeq pat.toList s.toList

/-- The effective auth type computed inside validateNonInteractiveAuth:
the configured auth type if present (AuthType values are nonempty strings,
so JS truthiness is presence), otherwise the environment-derived one;
then forced to USE_CLAUDE when the model name contains "claude" and
ANTHROPIC_VERTEX_PROJECT_ID is truthy (set and nonempty). -/
def effectiveAuthType (configuredAuthType : Option AuthType) (env : Env)
    (currentModel : String) : Option AuthType :=
  let isClaudeModel := strIncludes currentModel "claude"
  let base :=
    match configuredAuthType with
    | some a => some a
    | none => getAuthTypeFromEnv env
  if isClaudeModel && truthyStr env.ANTHROPIC_VERTEX_PROJECT_ID then some AuthType.USE_CLAUDE
  else base

/-! ### Helper lemmas about convertToClaudeFormat projections -/

/-- applySystem only touches the system field. -/
theorem applySystem_proj (r : ClaudeRequest) (s : String) :
    (ClaudeAdapter.applySystem r s).messages = r.messages
      ∧ (ClaudeAdapter.applySystem r s).max_tokens = r.max_tokens
      ∧ (ClaudeAdapter.applySystem r s).temperature = r.temperature
      ∧ (ClaudeAdapter.applySystem r s).top_p = r.top_p := by
  unfold ClaudeAdapter.applySystem
  split <;> exact ⟨rfl, rfl, rfl, rfl⟩

/-- applyTemperature sets temperature to the given value when defined and
touches nothing else. -/
theorem applyTemperature_proj (r : ClaudeRequest) (t : Option Rat) :
    (ClaudeAdapter.applyTemperature r t).messages = r.messages
      ∧ (ClaudeAdapter.applyTemperature r t).max_tokens = r.max_tokens
      ∧ (ClaudeAdapter.applyTemperature r t).temperature =
          (match t with | some v => some v | none => r.temperature)
      ∧ (ClaudeAdapter.applyTemperature r t).top_p = r.top_p := by
  cases t <;> exact ⟨rfl, rfl, rfl, rfl⟩

/-- applyTopP sets top_p to the given value when defined and touches
nothing else. -/
theorem applyTopP_proj (r : ClaudeRequest) (t : Option Rat) :
    (ClaudeAdapter.applyTopP r t).messages = r.messages
      ∧ (ClaudeAdapter.applyTopP r t).max_tokens = r.max_tokens
      ∧ (ClaudeAdapter.applyTopP r t).temperature = r.temperature
      ∧ (ClaudeAdapter.applyTopP r t).top_p =
          (match t with | some v => some v | none => r.top_p) := by
  cases t <;> exact ⟨rfl, rfl, rfl, rfl⟩

/-- applyTools only touches the tools field. -/
theorem applyTools_proj (r : ClaudeRequest) (ts : Option (List Tool)) :
    (ClaudeAdapter.applyTools r ts).messages = r.messages
      ∧ (ClaudeAdapter.applyTools r ts).max_tokens = r.max_tokens
      ∧ (ClaudeAdapter.applyTools r ts).temperature = r.temperature
      ∧ (ClaudeAdapter.applyTools r ts).top_p = r.top_p := by
  unfold ClaudeAdapter.applyTools
  rcases ts with _ | l
  · exact ⟨rfl, rfl, rfl, rfl⟩
  · dsimp only
    split <;> exact ⟨rfl, rfl, rfl, rfl⟩

/-- The messages field of the built Claude request is exactly the output
of the contents-to-messages loop: none of the later conditional field
assignments touches it. -/
theorem convertToClaudeFormat_messages (req : GenerateContentParameters) (now : Nat) :
    (ClaudeAdapter.convertToClaudeFormat req now).messages =
      ClaudeAdapter.buildMessages (contentsAsList req.contents) now := by
  unfold ClaudeAdapter.convertToClaudeFormat
  rw [(applyTools_proj _ _).1, (applyTopP_proj _ _).1, (applyTemperature_proj _ _).1,
    (applySystem_proj _ _).1]

/-- max_tokens is fixed at record creation and never reassigned. -/
theorem convertToClaudeFormat_max_tokens (req : GenerateContentParameters) (now : Nat) :
    (ClaudeAdapter.convertToClaudeFormat req now).max_tokens =
      (match req.config.bind GenerateContentConfig.maxOutputTokens with
        | some m => if m = 0 then 4096 else m
        | none => 4096) := by
  unfold ClaudeAdapter.convertToClaudeFormat
  rw [(applyTools_proj _ _).2.1, (applyTopP_proj _ _).2.1, (applyTemperature_proj _ _).2.1,
    (applySystem_proj _ _).2.1]

/-- The temperature field is assigned exactly when config.temperature is
defined, with the same value. -/
theorem convertToClaudeFormat_temperature (req : GenerateContentParameters) (now : Nat) :
    (ClaudeAdapter.convertToClaudeFormat req now).temperature =
      req.config.bind GenerateContentConfig.temperature := by
  unfold ClaudeAdapter.convertToClaudeFormat
  rw [(applyTools_proj _ _).2.2.1, (applyTopP_proj _ _).2.2.1, (applyTemperature_proj _ _).2.2.1,
    (applySystem_proj _ _).2.2.1]
  cases req.config.bind GenerateContentConfig.temperature <;> rfl

/-- The top_p field is assigned exactly when config.topP is defined, with
the same value. -/
theorem convertToClaudeFormat_top_p (req : GenerateContentParameters) (now : Nat) :
    (ClaudeAdapter.convertToClaudeFormat req now).top_p =
      req.config.bind GenerateContentConfig.topP := by
  unfold ClaudeAdapter.convertToClaudeFormat
  rw [(applyTools_proj _ _).2.2.2, (applyTopP_proj _ _).2.2.2, (applyTemperature_proj _ _).2.2.2,
    (applySystem_proj _ _).2.2.2]
  cases req.config.bind GenerateContentConfig.topP <;> rfl

/-! ### C3: mapFinishReason -/

/-- Claim C3: for every Claude stop_reason value (any string or
undefined), mapFinishReason returns MAX_TOKENS exactly when the input is
"max_tokens" and STOP in every other case (including "end_turn",
"tool_use", undefined and unrecognized strings). -/
theorem C3_mapFinishReason_spec (s : Option String) :
    ClaudeAdapter.mapFinishReason s =
      if s = some "max_tokens" then FinishReason.MAX_TOKENS else FinishReason.STOP := by
  unfold ClaudeAdapter.mapFinishReason
  by_cases h1 : s = some "end_turn" <;> by_cases h2 : s = some "max_tokens" <;> simp_all

/-! ### C4: error wrapping -/

/-- Claim C4: every error of the underlying call is caught exactly once
and re-thrown as an Error whose message is the original message with the
fixed prefix prepended: "Claude API error: " for non-streaming
generateContent on ClaudeContentGenerator (whose adapter layer lets the
error through unwrapped), "Claude streaming error: " inside the streaming
generator of the adapter (which ClaudeContentGenerator passes through
unchanged). Successful results pass through untouched: no retry,
classification or recovery exists. -/
theorem C4_error_wrapping (e : JsThrown) (r : ClaudeResponse) (chunks : List StreamChunk) :
    ClaudeContentGenerator.generateContent (Except.error e) =
        Except.error (JsThrown.errorObj ("Claude API error: " ++ e.asMessage))
      ∧ ClaudeContentGenerator.generateContent (Except.ok r) =
          Except.ok (ClaudeAdapter.convertToGeminiFormat r)
      ∧ ClaudeContentGenerator.generateContentStream (Except.error e) =
          Except.error (JsThrown.errorObj ("Claude streaming error: " ++ e.asMessage))
      ∧ ClaudeContentGenerator.generateContentStream (Except.ok chunks) =
          Except.ok (ClaudeAdapter.streamYields chunks) :=
  ⟨rfl, rfl, rfl, rfl⟩

/-! ### C6: embedContent always rejects -/

/-- Claim C6: embedContent on both ClaudeAdapter and
ClaudeContentGenerator rejects every input with an Error whose message
starts with "Embedding not supported for Claude models", and never
returns an embedding result. (Both functions are constant rejections:
they read no state and write none.) -/
theorem C6_embedContent_rejects (r1 r2 : EmbedContentParameters) :
    ClaudeAdapter.embedContent r1 =
        Except.error (JsThrown.errorObj
          "Embedding not supported for Claude models. Use Gemini embedding models instead.")
      ∧ ClaudeContentGenerator.embedContent r2 =
          Except.error (JsThrown.errorObj
            "Embedding not supported for Claude models. Please use Gemini embedding models instead.")
      ∧ (∀ resp, ClaudeAdapter.embedContent r1 ≠ Except.ok resp)
      ∧ (∀ resp, ClaudeContentGenerator.embedContent r2 ≠ Except.ok resp)
      ∧ ("Embedding not supported for Claude models. Use Gemini embedding models instead."
          = "Embedding not supported for Claude models" ++ ". Use Gemini embedding models instead.")
      ∧ ("Embedding not supported for Claude models. Please use Gemini embedding models instead."
          = "Embedding not supported for Claude models" ++ ". Please use Gemini embedding models instead.") :=
  ⟨rfl, rfl, fun _ h => Except.noConfusion h, fun _ h => Except.noConfusion h, rfl, rfl⟩

/-! ### C9: response shape invariants -/

/-- Claim C9: every response either converter produces has exactly one
candidate, with index 0, content role "model" and empty safetyRatings;
stream-chunk responses additionally carry finishReason STOP and an empty
functionCalls list. -/
theorem C9_response_shape (resp : ClaudeResponse) (chunk : StreamChunk) :
    (∃ c, (ClaudeAdapter.convertToGeminiFormat resp).candidates = [c]
        ∧ c.index = 0 ∧ c.content.role = some "model" ∧ c.safetyRatings = [])
      ∧ (∃ c, (ClaudeAdapter.convertStreamChunkToGemini chunk).candidates = [c]
          ∧ c.index = 0 ∧ c.content.role = some "model" ∧ c.safetyRatings = []
          ∧ c.finishReason = FinishReason.STOP)
      ∧ (ClaudeAdapter.convertStreamChunkToGemini chunk).functionCalls = [] :=
  ⟨⟨_, rfl, rfl, rfl, rfl⟩, ⟨_, rfl, rfl, rfl, rfl, rfl⟩, rfl⟩

/-! ### C2: streaming is a filtered pass-through, not a full pass-through -/

/-- A chunk kind an actual stream begins with; it carries no text delta. -/
def chunkC2ex : StreamChunk := { type := "message_start" }

/-- Claim C2 as stated is false: the loop does not yield one response per
chunk of the underlying stream. On the one-chunk stream
[message_start] it yields nothing, where a per-chunk pass-through would
yield one response. -/
theorem C2_counterexample :
    ClaudeAdapter.streamYields [chunkC2ex] ≠
      [chunkC2ex].map ClaudeAdapter.convertStreamChunkToGemini := by
  simp [ClaudeAdapter.streamYields, ClaudeAdapter.isTextDeltaChunk, chunkC2ex]

/-- Claim C2 amended: the streaming loop yields exactly one converted
response per chunk passing the text-delta guard
(type "content_block_delta" with delta type "text_delta"), in stream
order, and silently drops every other chunk; nothing is added, buffered
or reordered. -/
theorem C2_amended_filtered_passthrough (chunks : List StreamChunk) :
    ClaudeAdapter.streamYields chunks =
      (chunks.filter ClaudeAdapter.isTextDeltaChunk).map
        ClaudeAdapter.convertStreamChunkToGemini := by
  induction chunks with
  | nil => rfl
  | cons chunk rest ih =>
      by_cases h : ClaudeAdapter.isTextDeltaChunk chunk <;>
        simp [ClaudeAdapter.streamYields, List.filter_cons, h, ih]

/-! ### C10: role filtering of the messages list -/

/-- The contents-to-messages loop is the filterMap that keeps exactly the
"user"/"model" contents, in order, renaming "model" to "assistant". -/
theorem buildMessages_eq_filterMap (contents : List Content) (now : Nat) :
    ClaudeAdapter.buildMessages contents now =
      contents.filterMap (fun c =>
        if c.role = some "user" then
          some { role := "user",
                 content := ClaudeAdapter.convertPartsToClaudeContent (c.parts.getD []) now }
        else if c.role = some "model" then
          some { role := "assistant",
                 content := ClaudeAdapter.convertPartsToClaudeContent (c.parts.getD []) now }
        else none) := by
  induction contents with
  | nil => rfl
  | cons c rest ih =>
      by_cases h1 : c.role = some "user" <;> by_cases h2 : c.role = some "model" <;>
        simp_all [ClaudeAdapter.buildMessages, List.filterMap_cons]

/-- Claim C10: the Claude messages list contains exactly the input
contents whose role is "user" or "model", in their original order, with
"user" mapped to "user" and "model" mapped to "assistant"; a content with
a missing or different role is silently dropped. -/
theorem C10_messages_role_filter (req : GenerateContentParameters) (now : Nat) :
    (ClaudeAdapter.convertToClaudeFormat req now).messages =
      (contentsAsList req.contents).filterMap (fun c =>
        if c.role = some "user" then
          some { role := "user",
                 content := ClaudeAdapter.convertPartsToClaudeContent (c.parts.getD []) now }
        else if c.role = some "model" then
          some { role := "assistant",
                 content := ClaudeAdapter.convertPartsToClaudeContent (c.parts.getD []) now }
        else none) := by
  rw [convertToClaudeFormat_messages, buildMessages_eq_filterMap]

/-! ### C8: max_tokens default and temperature / top_p presence -/

/-- A request whose config provides maxOutputTokens = 0. -/
def reqC8ex : GenerateContentParameters :=
  { model := "claude-3-7-sonnet", contents := ContentsUnion.nonArray,
    config := some { maxOutputTokens := some 0 } }

/-- Claim C8 as stated is false: maxOutputTokens is provided (as 0) yet
the outgoing max_tokens is the default 4096, not 0, because the source
uses JS `||`, for which 0 is falsy. -/
theorem C8_counterexample :
    reqC8ex.config.bind GenerateContentConfig.maxOutputTokens = some 0
      ∧ (ClaudeAdapter.convertToClaudeFormat reqC8ex 0).max_tokens = 4096
      ∧ (ClaudeAdapter.convertToClaudeFormat reqC8ex 0).max_tokens ≠ 0 :=
  ⟨rfl, rfl, by decide⟩

/-- Claim C8 amended: max_tokens equals config.maxOutputTokens when that
field is provided and nonzero, and 4096 when it is absent or 0 (JS
falsy); temperature and top_p are present exactly when config.temperature
and config.topP are defined, with the same values. -/
theorem C8_amended_config_mapping (req : GenerateContentParameters) (now : Nat) :
    (ClaudeAdapter.convertToClaudeFormat req now).max_tokens =
        (match req.config.bind GenerateContentConfig.maxOutputTokens with
          | some m => if m = 0 then 4096 else m
          | none => 4096)
      ∧ (ClaudeAdapter.convertToClaudeFormat req now).temperature =
          req.config.bind GenerateContentConfig.temperature
      ∧ (ClaudeAdapter.convertToClaudeFormat req now).top_p =
          req.config.bind GenerateContentConfig.topP :=
  ⟨convertToClaudeFormat_max_tokens req now,
   convertToClaudeFormat_temperature req now,
   convertToClaudeFormat_top_p req now⟩

/-! ### C5: countTokens -/

/-- The text-length formula exactly as claim C5 words it: concatenate
every text part of every content (a part with a defined text field,
including the empty string) with a single space after each, then trim. -/
def claimTextOfContents (contents : List Content) : String :=
  jsTrim (contents.foldl
    (fun a c =>
      (c.parts.getD []).foldl
        (fun a2 p =>
          match p.text with
          | some t => a2 ++ t ++ " "
          | none => a2)
        a)
    "")

/-- totalTokens as claim C5 words it. -/
def claimTotalTokens (request : CountTokensParameters) : Nat :=
  match request.contents with
  | ContentsUnion.arr cs => mathCeilDiv (claimTextOfContents cs).length 4
  | ContentsUnion.nonArray => 0

/-- Contents containing an empty text part between nonempty ones. -/
def reqC5ex : CountTokensParameters :=
  { contents := ContentsUnion.arr
      [{ role := some "user",
         parts := some [{ text := some "aa" }, { text := some "" }, { text := some "b" }] }] }

/-- Claim C5 as stated is false: on contents with text parts "aa", "",
"b" the code builds "aa b" (the empty text part is falsy and skipped) and
returns ceil(4/4) = 1, while the claim formula builds "aa  b" and
demands ceil(5/4) = 2. -/
theorem C5_counterexample :
    (ClaudeAdapter.countTokens reqC5ex).totalTokens ≠ claimTotalTokens reqC5ex := by decide

/-- The nonempty texts of a part list, in order. -/
def nonemptyTextsOfParts : List Part → List String
  | [] => []
  | p :: rest =>
      match p.text with
      | some t => if t = "" then nonemptyTextsOfParts rest else t :: nonemptyTextsOfParts rest
      | none => nonemptyTextsOfParts rest

/-- The nonempty texts of every part of every content, in order. -/
def nonemptyTexts : List Content → List String
  | [] => []
  | c :: rest => nonemptyTextsOfParts (c.parts.getD []) ++ nonemptyTexts rest

/-- Concatenation of a list of strings. -/
def concatAll : List String → String
  | [] => ""
  | s :: rest => s ++ concatAll rest

theorem concatAll_append (a b : List String) :
    concatAll (a ++ b) = concatAll a ++ concatAll b := by
  induction a with
  | nil => simp [concatAll]
  | cons s rest ih => simp [concatAll, ih, String.append_assoc]

theorem appendTextParts_cons (acc : String) (p : Part) (rest : List Part) :
    ClaudeAdapter.appendTextParts acc (p :: rest) =
      ClaudeAdapter.appendTextParts
        (match p.text with
          | some t => if t = "" then acc else acc ++ t ++ " "
          | none => acc)
        rest := rfl

/-- The part-level accumulation builds the space-suffixed concatenation
of the nonempty texts. -/
theorem appendTextParts_eq (ps : List Part) (acc : String) :
    ClaudeAdapter.appendTextParts acc ps =
      acc ++ concatAll ((nonemptyTextsOfParts ps).map (· ++ " ")) := by
  induction ps generalizing acc with
  | nil => simp [ClaudeAdapter.appendTextParts, nonemptyTextsOfParts, concatAll]
  | cons p rest ih =>
      rw [appendTextParts_cons]
      cases hp : p.text with
      | none => simp [nonemptyTextsOfParts, hp, ih]
      | some t =>
          by_cases ht : t = "" <;>
            simp [nonemptyTextsOfParts, hp, ht, ih, concatAll, String.append_assoc]

/-- The content-level accumulation builds the space-suffixed
concatenation of the nonempty texts of all contents. -/
theorem textFold_eq (cs : List Content) (acc : String) :
    cs.foldl
        (fun a c =>
          match c.parts with
          | some ps => ClaudeAdapter.appendTextParts a ps
          | none => a)
        acc =
      acc ++ concatAll ((nonemptyTexts cs).map (· ++ " ")) := by
  induction cs generalizing acc with
  | nil => simp [nonemptyTexts, concatAll]
  | cons c rest ih =>
      cases hp : c.parts with
      | none => simp [List.foldl_cons, hp, ih, nonemptyTexts, nonemptyTextsOfParts, concatAll]
      | some ps =>
          rw [List.foldl_cons, ih]
          simp only [hp]
          rw [appendTextParts_eq]
          simp [nonemptyTexts, hp, List.map_append, concatAll_append, String.append_assoc]

/-- extractTextFromContents in declarative form. -/
theorem extractTextFromContents_eq (cs : List Content) :
    ClaudeAdapter.extractTextFromContents cs =
      jsTrim (concatAll ((nonemptyTexts cs).map (· ++ " "))) := by
  unfold ClaudeAdapter.extractTextFromContents
  rw [textFold_eq]
  rfl

/-- Claim C5 amended: for array contents, totalTokens is
ceil(L / 4) where L is the length of the string formed by concatenating
every nonempty text part of every content with a single space after each
and then trimming (empty text parts are falsy in the source and skipped);
for non-array contents totalTokens is 0. countTokens is total (the model
of a promise that always resolves). -/
theorem C5_countTokens_amended (request : CountTokensParameters) :
    (ClaudeAdapter.countTokens request).totalTokens =
      (match request.contents with
        | ContentsUnion.arr cs =>
            mathCeilDiv (jsTrim (concatAll ((nonemptyTexts cs).map (· ++ " ")))).length 4
        | ContentsUnion.nonArray => 0) := by
  cases h : request.contents with
  | arr cs =>
      simp [ClaudeAdapter.countTokens, contentsAsList, h, extractTextFromContents_eq]
  | nonArray =>
      simp [ClaudeAdapter.countTokens, contentsAsList, h, extractTextFromContents_eq,
        nonemptyTexts, concatAll, jsTrim, mathCeilDiv]

/-! ### C7: effective auth type -/

/-- The environment derivation exactly as claim C7 words it:
LOGIN_WITH_GOOGLE if GOOGLE_GENAI_USE_GCA === "true", else USE_VERTEX_AI
if GOOGLE_GENAI_USE_VERTEXAI === "true", else USE_CLAUDE if
ANTHROPIC_VERTEX_PROJECT_ID is set non-empty, else USE_GEMINI if
GEMINI_API_KEY is set non-empty, else undefined. -/
def claimAuthTypeFromEnv (env : Env) : Option AuthType :=
  if env.GOOGLE_GENAI_USE_GCA = some "true" then some AuthType.LOGIN_WITH_GOOGLE
  else if env.GOOGLE_GENAI_USE_VERTEXAI = some "true" then some AuthType.USE_VERTEX_AI
  else if truthyStr env.ANTHROPIC_VERTEX_PROJECT_ID then some AuthType.USE_CLAUDE
  else if truthyStr env.GEMINI_API_KEY then some AuthType.USE_GEMINI
  else none

/-- The effective auth type exactly as claim C7 words it: the configured
auth type if given, else the environment derivation, overridden to
USE_CLAUDE whenever the model name contains "claude" and
ANTHROPIC_VERTEX_PROJECT_ID is set (possibly empty). -/
def claimEffectiveAuthType (configured : Option AuthType) (env : Env)
    (model : String) : Option AuthType :=
  if strIncludes model "claude" && env.ANTHROPIC_VERTEX_PROJECT_ID.isSome then
    some AuthType.USE_CLAUDE
  else
    match configured with
    | some a => some a
    | none => claimAuthTypeFromEnv env

/-- Claim C7 amended in its override clause: the override to USE_CLAUDE
fires whenever the model name contains "claude" and
ANTHROPIC_VERTEX_PROJECT_ID is set non-empty (JS truthiness), not merely
set. -/
def claimEffectiveAuthTypeAmended (configured : Option AuthType) (env : Env)
    (model : String) : Option AuthType :=
  if strIncludes model "claude" && truthyStr env.ANTHROPIC_VERTEX_PROJECT_ID then
    some AuthType.USE_CLAUDE
  else
    match configured with
    | some a => some a
    | none => claimAuthTypeFromEnv env

/-- An environment in which ANTHROPIC_VERTEX_PROJECT_ID is set to the
empty string. -/
def envC7ex : Env := { ANTHROPIC_VERTEX_PROJECT_ID := some "" }

/-- Claim C7 as stated is false: with a Claude model name, a configured
auth type USE_GEMINI and ANTHROPIC_VERTEX_PROJECT_ID set to the empty
string, the claim demands the USE_CLAUDE override (the variable is set)
but the code leaves USE_GEMINI (the empty string is falsy). -/
theorem C7_counterexample :
    effectiveAuthType (some AuthType.USE_GEMINI) envC7ex "claude-3-7-sonnet" ≠
      claimEffectiveAuthType (some AuthType.USE_GEMINI) envC7ex "claude-3-7-sonnet" := by
  decide

/-- Claim C7 amended: the effective auth type is the configured auth type
if given, else the fixed-priority environment derivation, and is
overridden to USE_CLAUDE exactly when the model name contains "claude"
and ANTHROPIC_VERTEX_PROJECT_ID is set non-empty. -/
theorem C7_amended_effective_auth (configured : Option AuthType) (env : Env)
    (model : String) :
    effectiveAuthType configured env model =
      claimEffectiveAuthTypeAmended configured env model := by
  cases configured <;> rfl

/-! ### C1: the request converter and the clock -/

/-- A part that cannot reach the tool_use / tool_result branches of
convertPartsToClaudeContent: either its text is truthy (the text branch
wins) or it has neither a functionCall nor a functionResponse. -/
def timeInsensitivePart (p : Part) : Prop :=
  p.text.getD "" ≠ "" ∨ (p.functionCall = none ∧ p.functionResponse = none)

/-- Part conversion ignores the clock as long as no part reaches a tool
branch. -/
theorem convertParts_time_const (parts : List Part) (t1 t2 : Nat)
    (h : ∀ p ∈ parts, timeInsensitivePart p) :
    ClaudeAdapter.convertPartsToClaudeContent parts t1 =
      ClaudeAdapter.convertPartsToClaudeContent parts t2 := by
  induction parts with
  | nil => rfl
  | cons p rest ih =>
      have hp := h p (List.mem_cons_self p rest)
      have hrest := ih (fun q hq => h q (List.mem_cons_of_mem p hq))
      simp only [ClaudeAdapter.convertPartsToClaudeContent]
      rcases hp with ht | ⟨hfc, hfr⟩
      · rw [if_pos ht, if_pos ht, hrest]
      · by_cases ht : p.text.getD "" ≠ ""
        · rw [if_pos ht, if_pos ht, hrest]
        · rw [if_neg ht, if_neg ht, hfc, hfr]
          exact hrest

/-- Message building ignores the clock as long as no part reaches a tool
branch. -/
theorem buildMessages_time_const (contents : List Content) (t1 t2 : Nat)
    (h : ∀ c ∈ contents, ∀ p ∈ c.parts.getD [], timeInsensitivePart p) :
    ClaudeAdapter.buildMessages contents t1 = ClaudeAdapter.buildMessages contents t2 := by
  induction contents with
  | nil => rfl
  | cons c rest ih =>
      have hc := h c (List.mem_cons_self c rest)
      have hrest := ih (fun d hd => h d (List.mem_cons_of_mem c hd))
      have hparts := convertParts_time_const (c.parts.getD []) t1 t2 hc
      simp only [ClaudeAdapter.buildMessages]
      rw [hparts, hrest]

/-- A request whose single user content carries a functionCall part. -/
def reqC1ex : GenerateContentParameters :=
  { model := "claude-3-7-sonnet",
    contents := ContentsUnion.arr
      [{ role := some "user",
         parts := some [{ functionCall := some { name := some "get_weather" } }] }] }

/-- Claim C1 as stated is false: convertToClaudeFormat is not independent
of the current time. On a request containing a functionCall part, two
evaluations at Date.now() = 0 and Date.now() = 1 build different
tool_use ids ("tool_0" vs "tool_1") and hence different outputs. -/
theorem C1_counterexample :
    ClaudeAdapter.convertToClaudeFormat reqC1ex 0 ≠
      ClaudeAdapter.convertToClaudeFormat reqC1ex 1 := by
  intro h
  have h2 := congrArg ClaudeRequest.messages h
  rw [convertToClaudeFormat_messages, convertToClaudeFormat_messages] at h2
  simp [ClaudeAdapter.buildMessages, ClaudeAdapter.convertPartsToClaudeContent,
    reqC1ex, contentsAsList] at h2
  exact absurd h2 (by decide)

/-- Claim C1 amended: convertToClaudeFormat depends on the current time
only through the tool_use / tool_result ids it generates; on any request
in which every part of every content either has nonempty text or has
neither functionCall nor functionResponse, two evaluations at any two
times produce identical outputs. -/
theorem C1_amended_time_invariance (req : GenerateContentParameters) (t1 t2 : Nat)
    (h : ∀ c ∈ contentsAsList req.contents, ∀ p ∈ c.parts.getD [], timeInsensitivePart p) :
    ClaudeAdapter.convertToClaudeFormat req t1 = ClaudeAdapter.convertToClaudeFormat req t2 := by
  have key := buildMessages_time_const (contentsAsList req.contents) t1 t2 h
  simp only [ClaudeAdapter.convertToClaudeFormat]
  rw [key]

/-- A request whose single user content carries a plain text part. -/
def reqC1w : GenerateContentParameters :=
  { model := "claude-3-7-sonnet",
    contents := ContentsUnion.arr
      [{ role := some "user", parts := some [{ text := some "Hello" }] }] }

/-- Witness for the amended C1: a concrete text-only request converts
identically at two different times. -/
theorem C1_witness :
    ClaudeAdapter.convertToClaudeFormat reqC1w 0 = ClaudeAdapter.convertToClaudeFormat reqC1w 1 :=
  C1_amended_time_invariance reqC1w 0 1 (by
    intro c hc p hp
    simp [reqC1w, contentsAsList] at hc
    subst hc
    simp at hp
    subst hp
    left
    decide)
